import Mathlib

/-!
# Functional descriptors of `gga_c_revtca.c` and `gga_c_wl.c` (libxc 6.2.2)

The two source files each define one constant of type `xc_func_info_type` by a
positional initializer.  Everything the initializers name but do not define
(the macros of `xc.h`, the generated formula file with its `MAPLE2C_FLAGS`,
the work routine of `work_gga.c`) is either a parameter of the embedding or a
definition marked as modelled from the specification.

Numbers of C type `int` are `Int`; the `double` literals `1e-14` and `1e-12`
are the rationals their decimal text denotes; a C pointer is an `Option`,
with `NULL` as `none`.
-/

namespace Libxc

/-! ## Types of the absent headers -/

/-- Values of the macros of `xc.h` (included through `util.h`).  The source
files use `XC_CORRELATION`, `XC_FAMILY_GGA` and `XC_FLAGS_3D`; the other four
are the codes of the remaining kinds and families.  The header is not part of
the source files, so every value is a parameter. -/
structure xc_h where
  XC_EXCHANGE : Int
  XC_CORRELATION : Int
  XC_EXCHANGE_CORRELATION : Int
  XC_FAMILY_LDA : Int
  XC_FAMILY_GGA : Int
  XC_FAMILY_MGGA : Int
  XC_FLAGS_3D : Int

/-- Bibliographic reference objects whose addresses the two initializers
take. -/
inductive func_reference_type where
  | xc_ref_Tognetti2008_536
  | xc_ref_Wilson1990_12930
  deriving DecidableEq, Repr

/-- Modelled from the spec: the Physical Input Record of section 3 for one grid
point of a gradient-corrected functional: the density of every spin channel
and the gradient terms. -/
structure PhysicalInput where
  rho : List ℚ
  sigma : List ℚ
  deriving DecidableEq, Repr

/-- Modelled from the spec: the Evaluation Result of section 3 for one grid
point: the zero-order output and the collection of partial derivatives. -/
structure EvaluationResult where
  zk : ℚ
  partials : List ℚ
  deriving DecidableEq, Repr

/-- Signature of a generated formula: requested derivative order and input
point to result. -/
abbrev formula_type := Nat → PhysicalInput → EvaluationResult

/-- Contents of the generated file `maple2c/gga_exc/<name>.c` that a source
file includes: the macro `MAPLE2C_FLAGS` and the formula.  The generated files
are not part of the source files, so both are parameters. -/
structure maple2c where
  MAPLE2C_FLAGS : Int
  func : formula_type

/-- Signature of a work routine: density threshold of the functional,
requested derivative order, number of partial derivatives of the result, input
point. -/
abbrev work_routine := ℚ → Nat → Nat → PhysicalInput → EvaluationResult

/-- Pointee of the `lda` slot. -/
structure xc_lda_funcs_variants where
  call : work_routine

/-- Pointee of the `gga` slot. -/
structure xc_gga_funcs_variants where
  call : work_routine

/-- Pointee of the `mgga` slot. -/
structure xc_mgga_funcs_variants where
  call : work_routine

/-- External-parameter record, initialized in both files by
`{0, NULL, NULL, NULL, NULL}`: a count and four pointers. -/
structure func_params_type where
  n : Int
  names : Option (List String)
  descriptions : Option (List String)
  values : Option (List ℚ)
  set : Option (List ℚ → List ℚ)

/-- Pointee of the initialization and finalization hooks: a transformer of the
parameter state of a functional. -/
abbrev hook_type := List ℚ → List ℚ

/-- The descriptor type `xc_func_info_type` of `xc.h`, with the thirteen
members in the order in which the positional initializers of the two source
files fill them: identifier, kind, name, family, references, flags, density
threshold, external parameters, the two hooks (`fini` is the finalization
hook) and the work-variant slots of the three families. -/
structure xc_func_info_type where
  number : Int
  kind : Int
  name : String
  family : Int
  refs : List (Option func_reference_type)
  flags : Int
  dens_threshold : ℚ
  ext_params : func_params_type
  init : Option hook_type
  fini : Option hook_type
  lda : Option xc_lda_funcs_variants
  gga : Option xc_gga_funcs_variants
  mgga : Option xc_mgga_funcs_variants

/-! ## The work routine and the engine operations, absent from the source files -/

/-- Modelled from the spec: the result of a point that contributes exactly
zero (section 4.5): zero-order output zero and `shape` partial derivatives, all
zero. -/
def zero_result (shape : Nat) : EvaluationResult :=
  { zk := 0, partials := List.replicate shape 0 }

/-- Modelled from the spec: the test of the Threshold Guard, in the words of
section 8 (inputs with the spin channel densities below the threshold): every
spin channel density of the point is below the threshold. -/
def below_threshold (eps : ℚ) (inp : PhysicalInput) : Bool :=
  inp.rho.all (fun r => decide (r < eps))

/-- Modelled from the spec: the GGA work routine `work_gga` of `work_gga.c`,
which both source files include and which is not among them.  Section 4.5:
the density is compared against the threshold of the descriptor; below the
threshold the contribution of the point is exactly zero; otherwise the result
is the one the formula of the included generated file computes. -/
def work_gga (m : maple2c) : xc_gga_funcs_variants :=
  { call := fun eps order shape inp =>
      if below_threshold eps inp then zero_result shape else m.func order inp }

/-- Modelled from the spec: the typed failures of section 7. -/
inductive Failure where
  | InvalidInput
  | UnsupportedOrder
  | UnsupportedSpinMode
  | NotFound
  deriving DecidableEq, Repr

/-- Modelled from the spec: the registry query of sections 4.1 and 6.  The
registry and its lookup are not among the source files.  Given an identifier
it returns the matching descriptor of the registry or fails with NotFound. -/
def registry_query (registry : List xc_func_info_type) (id : Int) :
    Except Failure xc_func_info_type :=
  match registry.find? (fun d => decide (d.number = id)) with
  | some d => Except.ok d
  | none => Except.error Failure.NotFound

/-- Routine a descriptor offers, tagged with the family whose slot holds it. -/
inductive family_routine where
  | of_lda (w : xc_lda_funcs_variants)
  | of_gga (w : xc_gga_funcs_variants)
  | of_mgga (w : xc_mgga_funcs_variants)

/-- Modelled from the spec: the dispatch on the family of section 4.3 (it selects
the family-specific evaluation path), not among the source files.  The slot
matching the family code of the descriptor is read; `none` is a missing
routine. -/
def family_dispatch (h : xc_h) (info : xc_func_info_type) : Option family_routine :=
  if info.family = h.XC_FAMILY_LDA then info.lda.map family_routine.of_lda
  else if info.family = h.XC_FAMILY_GGA then info.gga.map family_routine.of_gga
  else if info.family = h.XC_FAMILY_MGGA then info.mgga.map family_routine.of_mgga
  else none

/-! ## The two source files -/

/-- Macro of `gga_c_revtca.c`, line 11. -/
def XC_GGA_C_REVTCA : Int := 99

/-- Macro of `gga_c_wl.c`, line 12. -/
def XC_GGA_C_WL : Int := 147

/-- Descriptor of `gga_c_revtca.c`, lines 19 to 30. -/
def xc_func_info_gga_c_revtca (h : xc_h) (m : maple2c) : xc_func_info_type :=
  { number := XC_GGA_C_REVTCA
    kind := h.XC_CORRELATION
    name := "Tognetti, Cortona, Adamo (revised)"
    family := h.XC_FAMILY_GGA
    refs := [some func_reference_type.xc_ref_Tognetti2008_536, none, none, none, none]
    flags := Int.lor h.XC_FLAGS_3D m.MAPLE2C_FLAGS
    dens_threshold := 1e-14
    ext_params := { n := 0, names := none, descriptions := none, values := none, set := none }
    init := none
    fini := none
    lda := none
    gga := some (work_gga m)
    mgga := none }

/-- Descriptor of `gga_c_wl.c`, lines 20 to 31. -/
def xc_func_info_gga_c_wl (h : xc_h) (m : maple2c) : xc_func_info_type :=
  { number := XC_GGA_C_WL
    kind := h.XC_CORRELATION
    name := "Wilson & Levy"
    family := h.XC_FAMILY_GGA
    refs := [some func_reference_type.xc_ref_Wilson1990_12930, none, none, none, none]
    flags := Int.lor h.XC_FLAGS_3D m.MAPLE2C_FLAGS
    dens_threshold := 1e-12
    ext_params := { n := 0, names := none, descriptions := none, values := none, set := none }
    init := none
    fini := none
    lda := none
    gga := some (work_gga m)
    mgga := none }

/-- The descriptors defined in the source files, given the header values and
the generated file of each. -/
def source_descriptors (h : xc_h) (m_revtca m_wl : maple2c) : List xc_func_info_type :=
  [xc_func_info_gga_c_revtca h m_revtca, xc_func_info_gga_c_wl h m_wl]

/-! ## Concrete parameters on which the definitions are evaluated -/

/-- One assignment of the header macros: kinds 0, 1, 2, families 1, 2, 4 and
the 3D flag `1 << 7`. -/
def sample_xc_h : xc_h :=
  { XC_EXCHANGE := 0
    XC_CORRELATION := 1
    XC_EXCHANGE_CORRELATION := 2
    XC_FAMILY_LDA := 1
    XC_FAMILY_GGA := 2
    XC_FAMILY_MGGA := 4
    XC_FLAGS_3D := 128 }

/-- One generated file: flags `1 | 2` and a formula that is nowhere zero. -/
def sample_maple2c : maple2c :=
  { MAPLE2C_FLAGS := 3
    func := fun order inp => { zk := 1, partials := List.replicate (order + inp.rho.length) 1 } }

/-! ## Supporting lemmas -/

/-- The zero result has the requested number of partial derivatives. -/
theorem zero_result_length (shape : Nat) : (zero_result shape).partials.length = shape := by
  simp [zero_result]

/-- The guard test holds exactly when every spin channel density is below the
threshold. -/
theorem below_threshold_iff (eps : ℚ) (inp : PhysicalInput) :
    below_threshold eps inp = true ↔ ∀ r ∈ inp.rho, r < eps := by
  simp [below_threshold]

/-- At or above the threshold the work routine returns what the formula
computes. -/
theorem work_gga_above (m : maple2c) (eps : ℚ) (order shape : Nat) (inp : PhysicalInput)
    (r : ℚ) (hr : r ∈ inp.rho) (hhigh : eps ≤ r) :
    (work_gga m).call eps order shape inp = m.func order inp := by
  have hb : below_threshold eps inp = false := by
    rw [Bool.eq_false_iff]
    intro hcon
    exact absurd ((below_threshold_iff eps inp).mp hcon r hr) (not_lt.mpr hhigh)
  simp [work_gga, hb]

/-- Membership in the list of source descriptors. -/
theorem mem_source_descriptors (h : xc_h) (m_revtca m_wl : maple2c) (info : xc_func_info_type) :
    info ∈ source_descriptors h m_revtca m_wl ↔
      info = xc_func_info_gga_c_revtca h m_revtca ∨ info = xc_func_info_gga_c_wl h m_wl := by
  simp [source_descriptors]

/-- Two integers with the same bits are equal (bits in two's complement, as
`Int.testBit` reads them). -/
theorem int_eq_of_testBit_eq (a b : Int) (hbits : ∀ k, a.testBit k = b.testBit k) : a = b := by
  have hfar : ∀ m n : Nat, ∃ k, m.testBit k = false ∧ n.testBit k = false := by
    intro m n
    refine ⟨m + n, Nat.testBit_lt_two_pow ?_, Nat.testBit_lt_two_pow ?_⟩
    · exact lt_of_le_of_lt (Nat.le_add_right m n) (Nat.lt_two_pow _)
    · exact lt_of_le_of_lt (Nat.le_add_left n m) (Nat.lt_two_pow _)
  cases a with
  | ofNat m =>
    cases b with
    | ofNat n =>
      have hmn : m = n := Nat.eq_of_testBit_eq (fun k => by simpa [Int.testBit] using hbits k)
      rw [hmn]
    | negSucc n =>
      obtain ⟨k, hm, hn⟩ := hfar m n
      have hk := hbits k
      simp [Int.testBit, hm, hn] at hk
  | negSucc m =>
    cases b with
    | ofNat n =>
      obtain ⟨k, hm, hn⟩ := hfar m n
      have hk := hbits k
      simp [Int.testBit, hm, hn] at hk
    | negSucc n =>
      have hmn : m = n := Nat.eq_of_testBit_eq (fun k => by
        have hk := hbits k
        simpa [Int.testBit] using hk)
      rw [hmn]

/-- Bitwise or absorbs its left operand under bitwise and. -/
theorem land_lor_left (a b : Int) : Int.land (Int.lor a b) a = a := by
  apply int_eq_of_testBit_eq
  intro k
  rw [Int.testBit_land, Int.testBit_lor]
  cases a.testBit k <;> cases b.testBit k <;> rfl

/-- Bitwise or absorbs its right operand under bitwise and. -/
theorem land_lor_right (a b : Int) : Int.land (Int.lor a b) b = b := by
  apply int_eq_of_testBit_eq
  intro k
  rw [Int.testBit_land, Int.testBit_lor]
  cases a.testBit k <;> cases b.testBit k <;> rfl

/-- Bit `b` of the integer `2 ^ b` is set. -/
theorem testBit_two_pow_self (b : Nat) : ((2 : Int) ^ b).testBit b = true := by
  have hcast : ((2 : Int) ^ b) = Int.ofNat (2 ^ b) := by
    simp
  rw [hcast]
  show Nat.testBit (2 ^ b) b = true
  exact Nat.testBit_two_pow_self

/-- The operator `|` on two values of the C type `int` yields a value of that
type: the 32-bit range is closed under `Int.lor`, so no reduction modulo 2^32
is needed in the flags field. -/
theorem lor_int_range (a b : Int) (ha : -2 ^ 31 ≤ a ∧ a < 2 ^ 31)
    (hb : -2 ^ 31 ≤ b ∧ b < 2 ^ 31) :
    -2 ^ 31 ≤ Int.lor a b ∧ Int.lor a b < 2 ^ 31 := by
  cases a with
  | ofNat m =>
    have hm : m < 2 ^ 31 := by
      have := ha.2
      simp only [Int.ofNat_eq_coe] at this
      exact_mod_cast this
    cases b with
    | ofNat n =>
      have hn : n < 2 ^ 31 := by
        have := hb.2
        simp only [Int.ofNat_eq_coe] at this
        exact_mod_cast this
      have hor : m ||| n < 2 ^ 31 := Nat.or_lt_two_pow hm hn
      show -2 ^ 31 ≤ ((m ||| n : Nat) : Int) ∧ ((m ||| n : Nat) : Int) < 2 ^ 31
      constructor
      · have : (0 : Int) ≤ ((m ||| n : Nat) : Int) := Int.ofNat_nonneg _
        linarith
      · exact_mod_cast hor
    | negSucc n =>
      have hn : n < 2 ^ 31 := by
        have := hb.1
        rw [Int.negSucc_eq] at this
        have h2 : ((n : Int) + 1) ≤ 2 ^ 31 := by linarith
        have h3 : n + 1 ≤ 2 ^ 31 := by exact_mod_cast h2
        omega
      have hd : Nat.ldiff n m < 2 ^ 31 := Nat.bitwise_lt_two_pow hn hm
      show -2 ^ 31 ≤ Int.negSucc (Nat.ldiff n m) ∧ Int.negSucc (Nat.ldiff n m) < 2 ^ 31
      rw [Int.negSucc_eq]
      have hd2 : ((Nat.ldiff n m : Nat) : Int) < 2 ^ 31 := by exact_mod_cast hd
      have hd3 : (0 : Int) ≤ ((Nat.ldiff n m : Nat) : Int) := Int.ofNat_nonneg _
      constructor <;> linarith
  | negSucc m =>
    have hm : m < 2 ^ 31 := by
      have := ha.1
      rw [Int.negSucc_eq] at this
      have h2 : ((m : Int) + 1) ≤ 2 ^ 31 := by linarith
      have h3 : m + 1 ≤ 2 ^ 31 := by exact_mod_cast h2
      omega
    cases b with
    | ofNat n =>
      have hn : n < 2 ^ 31 := by
        have := hb.2
        simp only [Int.ofNat_eq_coe] at this
        exact_mod_cast this
      have hd : Nat.ldiff m n < 2 ^ 31 := Nat.bitwise_lt_two_pow hm hn
      show -2 ^ 31 ≤ Int.negSucc (Nat.ldiff m n) ∧ Int.negSucc (Nat.ldiff m n) < 2 ^ 31
      rw [Int.negSucc_eq]
      have hd2 : ((Nat.ldiff m n : Nat) : Int) < 2 ^ 31 := by exact_mod_cast hd
      have hd3 : (0 : Int) ≤ ((Nat.ldiff m n : Nat) : Int) := Int.ofNat_nonneg _
      constructor <;> linarith
    | negSucc n =>
      have hn : n < 2 ^ 31 := by
        have := hb.1
        rw [Int.negSucc_eq] at this
        have h2 : ((n : Int) + 1) ≤ 2 ^ 31 := by linarith
        have h3 : n + 1 ≤ 2 ^ 31 := by exact_mod_cast h2
        omega
      have hd : m &&& n < 2 ^ 31 := Nat.and_lt_two_pow m hn
      show -2 ^ 31 ≤ Int.negSucc (m &&& n) ∧ Int.negSucc (m &&& n) < 2 ^ 31
      rw [Int.negSucc_eq]
      have hd2 : ((m &&& n : Nat) : Int) < 2 ^ 31 := by exact_mod_cast hd
      have hd3 : (0 : Int) ≤ ((m &&& n : Nat) : Int) := Int.ofNat_nonneg _
      constructor <;> linarith

/-- A successful query returns a descriptor of the registry that carries the
queried identifier. -/
theorem registry_query_ok (registry : List xc_func_info_type) (id : Int)
    (d : xc_func_info_type) (hq : registry_query registry id = Except.ok d) :
    d.number = id ∧ d ∈ registry := by
  unfold registry_query at hq
  cases hfind : registry.find? (fun d => decide (d.number = id)) with
  | none => rw [hfind] at hq; cases hq
  | some e =>
    rw [hfind] at hq
    have hde : e = d := by injection hq
    subst hde
    have hp := List.find?_some hfind
    exact ⟨of_decide_eq_true hp, List.mem_of_find?_eq_some hfind⟩

/-- A query for an identifier that no descriptor of the registry carries fails
with NotFound. -/
theorem registry_query_not_found (registry : List xc_func_info_type) (id : Int)
    (hnone : ∀ d ∈ registry, d.number ≠ id) :
    registry_query registry id = Except.error Failure.NotFound := by
  have hfind : registry.find? (fun d => decide (d.number = id)) = none := by
    rw [List.find?_eq_none]
    intro d hd
    simpa using hnone d hd
  simp [registry_query, hfind]

/-! ## The claims -/

/-- C2: the identifier is unique over the descriptors of the source files: two
of them with equal identifier numbers are the same descriptor; the revTCA
identifier is 99, the Wilson and Levy identifier is 147, and 99 is not 147. -/
theorem C2_identifier_unique (h : xc_h) (m_revtca m_wl : maple2c) :
    (∀ a ∈ source_descriptors h m_revtca m_wl, ∀ b ∈ source_descriptors h m_revtca m_wl,
        a.number = b.number → a = b) ∧
    (xc_func_info_gga_c_revtca h m_revtca).number = 99 ∧
    (xc_func_info_gga_c_wl h m_wl).number = 147 ∧
    (xc_func_info_gga_c_revtca h m_revtca).number ≠ (xc_func_info_gga_c_wl h m_wl).number := by
  have hne : (xc_func_info_gga_c_revtca h m_revtca).number
      ≠ (xc_func_info_gga_c_wl h m_wl).number := by
    show (99 : Int) ≠ 147
    decide
  refine ⟨?_, rfl, rfl, hne⟩
  intro a ha b hb hab
  rcases (mem_source_descriptors h m_revtca m_wl a).mp ha with rfl | rfl <;>
    rcases (mem_source_descriptors h m_revtca m_wl b).mp hb with rfl | rfl
  · rfl
  · exact absurd hab hne
  · exact absurd hab.symm hne
  · rfl

/-- Witness of C2: over the sample parameters, the descriptor the list holds
first and the revTCA descriptor carry the same number and are equal. -/
theorem C2_identifier_unique_witness :
    (xc_func_info_gga_c_revtca sample_xc_h sample_maple2c).number = 99 ∧
    xc_func_info_gga_c_revtca sample_xc_h sample_maple2c
      = xc_func_info_gga_c_revtca sample_xc_h sample_maple2c :=
  ⟨rfl,
    (C2_identifier_unique sample_xc_h sample_maple2c sample_maple2c).1
      (xc_func_info_gga_c_revtca sample_xc_h sample_maple2c) (by simp [source_descriptors])
      (xc_func_info_gga_c_revtca sample_xc_h sample_maple2c) (by simp [source_descriptors])
      rfl⟩

/-- C3: the density threshold of the revTCA descriptor is 1e-14 = 1/10^14, the
one of the Wilson and Levy descriptor is 1e-12 = 1/10^12; both are greater
than 0, they differ, and the revTCA threshold is the smaller one, by the
factor 100. -/
theorem C3_threshold_positive_and_specific (h : xc_h) (m_revtca m_wl : maple2c) :
    (xc_func_info_gga_c_revtca h m_revtca).dens_threshold = 1 / 10 ^ 14 ∧
    (xc_func_info_gga_c_wl h m_wl).dens_threshold = 1 / 10 ^ 12 ∧
    0 < (xc_func_info_gga_c_revtca h m_revtca).dens_threshold ∧
    0 < (xc_func_info_gga_c_wl h m_wl).dens_threshold ∧
    (xc_func_info_gga_c_revtca h m_revtca).dens_threshold
      ≠ (xc_func_info_gga_c_wl h m_wl).dens_threshold ∧
    (xc_func_info_gga_c_revtca h m_revtca).dens_threshold
      < (xc_func_info_gga_c_wl h m_wl).dens_threshold ∧
    (xc_func_info_gga_c_wl h m_wl).dens_threshold
      = 100 * (xc_func_info_gga_c_revtca h m_revtca).dens_threshold := by
  have hrev : (xc_func_info_gga_c_revtca h m_revtca).dens_threshold = 1e-14 := rfl
  have hwl : (xc_func_info_gga_c_wl h m_wl).dens_threshold = 1e-12 := rfl
  rw [hrev, hwl]
  norm_num

/-- C4: both descriptors have the kind XC_CORRELATION, which is one of the
three kind codes (exchange, correlation, exchange-correlation), and the family
XC_FAMILY_GGA, which is one of the three family codes (local-density,
gradient-corrected, meta-gradient-corrected); the Wilson and Levy descriptor
is a gradient-corrected correlation functional with threshold 1e-12. -/
theorem C4_kind_and_family (h : xc_h) (m_revtca m_wl : maple2c) :
    (xc_func_info_gga_c_revtca h m_revtca).kind = h.XC_CORRELATION ∧
    (xc_func_info_gga_c_wl h m_wl).kind = h.XC_CORRELATION ∧
    (xc_func_info_gga_c_revtca h m_revtca).family = h.XC_FAMILY_GGA ∧
    (xc_func_info_gga_c_wl h m_wl).family = h.XC_FAMILY_GGA ∧
    (xc_func_info_gga_c_revtca h m_revtca).kind
      ∈ [h.XC_EXCHANGE, h.XC_CORRELATION, h.XC_EXCHANGE_CORRELATION] ∧
    (xc_func_info_gga_c_wl h m_wl).kind
      ∈ [h.XC_EXCHANGE, h.XC_CORRELATION, h.XC_EXCHANGE_CORRELATION] ∧
    (xc_func_info_gga_c_revtca h m_revtca).family
      ∈ [h.XC_FAMILY_LDA, h.XC_FAMILY_GGA, h.XC_FAMILY_MGGA] ∧
    (xc_func_info_gga_c_wl h m_wl).family
      ∈ [h.XC_FAMILY_LDA, h.XC_FAMILY_GGA, h.XC_FAMILY_MGGA] ∧
    (xc_func_info_gga_c_wl h m_wl).dens_threshold = 1e-12 := by
  refine ⟨rfl, rfl, rfl, rfl, ?_, ?_, ?_, ?_, rfl⟩ <;>
    simp [xc_func_info_gga_c_revtca, xc_func_info_gga_c_wl]

/-- C5: the registry query over the descriptors of the source files returns
the revTCA descriptor for 99 and the Wilson and Levy descriptor for 147; every
returned descriptor is one of the source descriptors and has the queried
identifier as its number; a query for an identifier that no descriptor carries
(any identifier other than 99 and 147) fails with NotFound; and every query
either returns a descriptor or fails with NotFound. -/
theorem C5_registry_query (h : xc_h) (m_revtca m_wl : maple2c) :
    registry_query (source_descriptors h m_revtca m_wl) 99
      = Except.ok (xc_func_info_gga_c_revtca h m_revtca) ∧
    registry_query (source_descriptors h m_revtca m_wl) 147
      = Except.ok (xc_func_info_gga_c_wl h m_wl) ∧
    (∀ (id : Int) (d : xc_func_info_type),
        registry_query (source_descriptors h m_revtca m_wl) id = Except.ok d →
          d.number = id ∧ d ∈ source_descriptors h m_revtca m_wl) ∧
    (∀ id : Int, (∀ d ∈ source_descriptors h m_revtca m_wl, d.number ≠ id) →
        registry_query (source_descriptors h m_revtca m_wl) id
          = Except.error Failure.NotFound) ∧
    (∀ id : Int, id ≠ 99 → id ≠ 147 →
        registry_query (source_descriptors h m_revtca m_wl) id
          = Except.error Failure.NotFound) ∧
    (∀ id : Int,
        (∃ d, registry_query (source_descriptors h m_revtca m_wl) id = Except.ok d) ∨
        registry_query (source_descriptors h m_revtca m_wl) id
          = Except.error Failure.NotFound) := by
  have hmiss : ∀ id : Int, id ≠ 99 → id ≠ 147 →
      registry_query (source_descriptors h m_revtca m_wl) id
        = Except.error Failure.NotFound := by
    intro id h99 h147
    apply registry_query_not_found
    intro d hd
    rcases (mem_source_descriptors h m_revtca m_wl d).mp hd with rfl | rfl
    · exact fun hcon => h99 hcon.symm
    · exact fun hcon => h147 hcon.symm
  have hrev : registry_query (source_descriptors h m_revtca m_wl) 99
      = Except.ok (xc_func_info_gga_c_revtca h m_revtca) := by
    simp [registry_query, source_descriptors, xc_func_info_gga_c_revtca, XC_GGA_C_REVTCA]
  have hwl : registry_query (source_descriptors h m_revtca m_wl) 147
      = Except.ok (xc_func_info_gga_c_wl h m_wl) := by
    simp [registry_query, source_descriptors, xc_func_info_gga_c_revtca,
      xc_func_info_gga_c_wl, XC_GGA_C_REVTCA, XC_GGA_C_WL]
  refine ⟨hrev, hwl, ?_, ?_, hmiss, ?_⟩
  · intro id d hq
    exact registry_query_ok _ id d hq
  · intro id hnone
    exact registry_query_not_found _ id hnone
  · intro id
    by_cases h99 : id = 99
    · exact Or.inl ⟨_, h99 ▸ hrev⟩
    · by_cases h147 : id = 147
      · exact Or.inl ⟨_, h147 ▸ hwl⟩
      · exact Or.inr (hmiss id h99 h147)

/-- Witness of C5: over the sample parameters the identifier 100, which
neither descriptor carries, is answered with NotFound. -/
theorem C5_registry_query_witness :
    registry_query (source_descriptors sample_xc_h sample_maple2c sample_maple2c) 100
      = Except.error Failure.NotFound :=
  (C5_registry_query sample_xc_h sample_maple2c sample_maple2c).2.2.2.2.1 100
    (by decide) (by decide)

/-- C6: in both descriptors the family is XC_FAMILY_GGA, the gga slot is
non-null and holds the work routine work_gga of the file, and the lda and mgga
slots are NULL; whatever the family codes are, a routine the dispatch on the
family reaches is that gga routine, never one of another family; and with the
LDA and GGA codes distinct the dispatch finds the gga routine, not a missing
one. -/
theorem C6_slot_agrees_with_family (h : xc_h) (m_revtca m_wl : maple2c) :
    ((xc_func_info_gga_c_revtca h m_revtca).family = h.XC_FAMILY_GGA ∧
      (xc_func_info_gga_c_revtca h m_revtca).gga = some (work_gga m_revtca) ∧
      (xc_func_info_gga_c_revtca h m_revtca).gga.isSome = true ∧
      (xc_func_info_gga_c_revtca h m_revtca).lda = none ∧
      (xc_func_info_gga_c_revtca h m_revtca).mgga = none) ∧
    ((xc_func_info_gga_c_wl h m_wl).family = h.XC_FAMILY_GGA ∧
      (xc_func_info_gga_c_wl h m_wl).gga = some (work_gga m_wl) ∧
      (xc_func_info_gga_c_wl h m_wl).gga.isSome = true ∧
      (xc_func_info_gga_c_wl h m_wl).lda = none ∧
      (xc_func_info_gga_c_wl h m_wl).mgga = none) ∧
    (∀ r, family_dispatch h (xc_func_info_gga_c_revtca h m_revtca) = some r →
        r = family_routine.of_gga (work_gga m_revtca)) ∧
    (∀ r, family_dispatch h (xc_func_info_gga_c_wl h m_wl) = some r →
        r = family_routine.of_gga (work_gga m_wl)) ∧
    (h.XC_FAMILY_LDA ≠ h.XC_FAMILY_GGA →
        family_dispatch h (xc_func_info_gga_c_revtca h m_revtca)
          = some (family_routine.of_gga (work_gga m_revtca)) ∧
        family_dispatch h (xc_func_info_gga_c_wl h m_wl)
          = some (family_routine.of_gga (work_gga m_wl))) := by
  refine ⟨⟨rfl, rfl, rfl, rfl, rfl⟩, ⟨rfl, rfl, rfl, rfl, rfl⟩, ?_, ?_, ?_⟩
  · intro r hr
    unfold family_dispatch at hr
    simp only [xc_func_info_gga_c_revtca, Option.map_none', Option.map_some'] at hr
    split_ifs at hr
    simp_all
  · intro r hr
    unfold family_dispatch at hr
    simp only [xc_func_info_gga_c_wl, Option.map_none', Option.map_some'] at hr
    split_ifs at hr
    simp_all
  · intro hne
    have hne2 : ¬ h.XC_FAMILY_GGA = h.XC_FAMILY_LDA := fun hcon => hne hcon.symm
    constructor
    · simp [family_dispatch, xc_func_info_gga_c_revtca, hne2]
    · simp [family_dispatch, xc_func_info_gga_c_wl, hne2]

/-- Witness of C6: with the sample header, where the LDA code is 1 and the GGA
code is 2, the dispatch on the family of either descriptor finds the gga
routine. -/
theorem C6_slot_agrees_with_family_witness :
    sample_xc_h.XC_FAMILY_LDA ≠ sample_xc_h.XC_FAMILY_GGA ∧
    family_dispatch sample_xc_h (xc_func_info_gga_c_revtca sample_xc_h sample_maple2c)
      = some (family_routine.of_gga (work_gga sample_maple2c)) ∧
    family_dispatch sample_xc_h (xc_func_info_gga_c_wl sample_xc_h sample_maple2c)
      = some (family_routine.of_gga (work_gga sample_maple2c)) :=
  ⟨by decide,
    (C6_slot_agrees_with_family sample_xc_h sample_maple2c sample_maple2c).2.2.2.2
      (by decide)⟩

/-- C7: for every value of XC_FLAGS_3D and every value of MAPLE2C_FLAGS the
flags field of both descriptors is XC_FLAGS_3D | MAPLE2C_FLAGS; every bit of
XC_FLAGS_3D is set in it, every bit of MAPLE2C_FLAGS is set in it, and a bit is
set in it exactly when it is set in XC_FLAGS_3D or in MAPLE2C_FLAGS, so no
other bit is set; in particular, when XC_FLAGS_3D is the single bit 2^b, bit
b of the flags field is set. -/
theorem C7_flags_are_3d_or_maple2c (h : xc_h) (m_revtca m_wl : maple2c) :
    ((xc_func_info_gga_c_revtca h m_revtca).flags
        = Int.lor h.XC_FLAGS_3D m_revtca.MAPLE2C_FLAGS ∧
      Int.land (xc_func_info_gga_c_revtca h m_revtca).flags h.XC_FLAGS_3D
        = h.XC_FLAGS_3D ∧
      Int.land (xc_func_info_gga_c_revtca h m_revtca).flags m_revtca.MAPLE2C_FLAGS
        = m_revtca.MAPLE2C_FLAGS ∧
      ∀ k : Nat, (xc_func_info_gga_c_revtca h m_revtca).flags.testBit k
        = (h.XC_FLAGS_3D.testBit k || m_revtca.MAPLE2C_FLAGS.testBit k)) ∧
    ((xc_func_info_gga_c_wl h m_wl).flags
        = Int.lor h.XC_FLAGS_3D m_wl.MAPLE2C_FLAGS ∧
      Int.land (xc_func_info_gga_c_wl h m_wl).flags h.XC_FLAGS_3D
        = h.XC_FLAGS_3D ∧
      Int.land (xc_func_info_gga_c_wl h m_wl).flags m_wl.MAPLE2C_FLAGS
        = m_wl.MAPLE2C_FLAGS ∧
      ∀ k : Nat, (xc_func_info_gga_c_wl h m_wl).flags.testBit k
        = (h.XC_FLAGS_3D.testBit k || m_wl.MAPLE2C_FLAGS.testBit k)) ∧
    (∀ b : Nat, h.XC_FLAGS_3D = 2 ^ b →
      (xc_func_info_gga_c_revtca h m_revtca).flags.testBit b = true ∧
      (xc_func_info_gga_c_wl h m_wl).flags.testBit b = true) := by
  refine ⟨⟨rfl, land_lor_left _ _, land_lor_right _ _, fun k => Int.testBit_lor _ _ k⟩,
    ⟨rfl, land_lor_left _ _, land_lor_right _ _, fun k => Int.testBit_lor _ _ k⟩, ?_⟩
  intro b hb
  have hbit : h.XC_FLAGS_3D.testBit b = true := by
    rw [hb, testBit_two_pow_self]
  constructor
  · show (Int.lor h.XC_FLAGS_3D m_revtca.MAPLE2C_FLAGS).testBit b = true
    rw [Int.testBit_lor, hbit, Bool.true_or]
  · show (Int.lor h.XC_FLAGS_3D m_wl.MAPLE2C_FLAGS).testBit b = true
    rw [Int.testBit_lor, hbit, Bool.true_or]

/-- Witness of C7: with the sample header, where XC_FLAGS_3D is 128 = 2^7, and
the sample flags 3, the flags field of both descriptors is 131 and has bit 7
set. -/
theorem C7_flags_are_3d_or_maple2c_witness :
    sample_xc_h.XC_FLAGS_3D = 2 ^ 7 ∧
    (xc_func_info_gga_c_revtca sample_xc_h sample_maple2c).flags = 131 ∧
    (xc_func_info_gga_c_revtca sample_xc_h sample_maple2c).flags.testBit 7 = true ∧
    (xc_func_info_gga_c_wl sample_xc_h sample_maple2c).flags.testBit 7 = true :=
  ⟨by decide, by decide,
    (C7_flags_are_3d_or_maple2c sample_xc_h sample_maple2c sample_maple2c).2.2 7 (by decide)⟩

/-- C8: in both descriptors the external-parameter record has count 0 and four
NULL pointers and both hooks are NULL; the two descriptors agree on kind,
family, external parameters, hooks and the lda and mgga slots, and each holds
the work routine work_gga of its own file in the gga slot; they differ in
identifier, name, reference list and threshold; and the Wilson and Levy descriptor is the
revTCA descriptor with identifier, name, reference list, threshold and the
two members built from the included formula file (flags, gga routine)
replaced. -/
theorem C8_no_state_and_differences (h : xc_h) (m_revtca m_wl : maple2c) :
    ((xc_func_info_gga_c_revtca h m_revtca).ext_params.n = 0 ∧
      (xc_func_info_gga_c_revtca h m_revtca).ext_params.names = none ∧
      (xc_func_info_gga_c_revtca h m_revtca).ext_params.descriptions = none ∧
      (xc_func_info_gga_c_revtca h m_revtca).ext_params.values = none ∧
      (xc_func_info_gga_c_revtca h m_revtca).ext_params.set = none ∧
      (xc_func_info_gga_c_revtca h m_revtca).init = none ∧
      (xc_func_info_gga_c_revtca h m_revtca).fini = none) ∧
    ((xc_func_info_gga_c_wl h m_wl).ext_params.n = 0 ∧
      (xc_func_info_gga_c_wl h m_wl).ext_params.names = none ∧
      (xc_func_info_gga_c_wl h m_wl).ext_params.descriptions = none ∧
      (xc_func_info_gga_c_wl h m_wl).ext_params.values = none ∧
      (xc_func_info_gga_c_wl h m_wl).ext_params.set = none ∧
      (xc_func_info_gga_c_wl h m_wl).init = none ∧
      (xc_func_info_gga_c_wl h m_wl).fini = none) ∧
    ((xc_func_info_gga_c_revtca h m_revtca).number ≠ (xc_func_info_gga_c_wl h m_wl).number ∧
      (xc_func_info_gga_c_revtca h m_revtca).name ≠ (xc_func_info_gga_c_wl h m_wl).name ∧
      (xc_func_info_gga_c_revtca h m_revtca).refs ≠ (xc_func_info_gga_c_wl h m_wl).refs ∧
      (xc_func_info_gga_c_revtca h m_revtca).dens_threshold
        ≠ (xc_func_info_gga_c_wl h m_wl).dens_threshold) ∧
    ((xc_func_info_gga_c_revtca h m_revtca).kind = (xc_func_info_gga_c_wl h m_wl).kind ∧
      (xc_func_info_gga_c_revtca h m_revtca).family = (xc_func_info_gga_c_wl h m_wl).family ∧
      (xc_func_info_gga_c_revtca h m_revtca).ext_params
        = (xc_func_info_gga_c_wl h m_wl).ext_params ∧
      (xc_func_info_gga_c_revtca h m_revtca).init = (xc_func_info_gga_c_wl h m_wl).init ∧
      (xc_func_info_gga_c_revtca h m_revtca).fini = (xc_func_info_gga_c_wl h m_wl).fini ∧
      (xc_func_info_gga_c_revtca h m_revtca).lda = (xc_func_info_gga_c_wl h m_wl).lda ∧
      (xc_func_info_gga_c_revtca h m_revtca).mgga = (xc_func_info_gga_c_wl h m_wl).mgga ∧
      (xc_func_info_gga_c_revtca h m_revtca).gga = some (work_gga m_revtca) ∧
      (xc_func_info_gga_c_wl h m_wl).gga = some (work_gga m_wl)) ∧
    xc_func_info_gga_c_wl h m_wl =
      { xc_func_info_gga_c_revtca h m_revtca with
        number := XC_GGA_C_WL
        name := "Wilson & Levy"
        refs := [some func_reference_type.xc_ref_Wilson1990_12930, none, none, none, none]
        dens_threshold := 1e-12
        flags := Int.lor h.XC_FLAGS_3D m_wl.MAPLE2C_FLAGS
        gga := some (work_gga m_wl) } := by
  refine ⟨⟨rfl, rfl, rfl, rfl, rfl, rfl, rfl⟩, ⟨rfl, rfl, rfl, rfl, rfl, rfl, rfl⟩,
    ⟨?_, ?_, ?_, ?_⟩, ⟨rfl, rfl, rfl, rfl, rfl, rfl, rfl, rfl, rfl⟩, rfl⟩
  · show (99 : Int) ≠ 147
    decide
  · show "Tognetti, Cortona, Adamo (revised)" ≠ "Wilson & Levy"
    decide
  · simp [xc_func_info_gga_c_revtca, xc_func_info_gga_c_wl]
  · show (1e-14 : ℚ) ≠ 1e-12
    norm_num

end Libxc
